import Mathlib

/-!
Verification of the CO₂-emissions calculator (streamlit_app.py).

The program is shallowly embedded: quantities and emission values are exact
rationals (ℚ), the Python dict EMISSIEFACTOREN becomes an association list in
its insertion order, the emissions result of bereken_emissies becomes an
association list in the insertion order of the Python dict, and the pieces of
the Streamlit main() that the claims concern (the button handler storing
session state, the results-table percentage column) become explicit
state-passing functions.  Fixed-point display formatting (Python format
specifiers such as .2f) is modelled in exact arithmetic by rounding to the
nearest multiple of 10^(-d).
-/

namespace CO2App

/-- The factor table of streamlit_app.py lines 13–19, in dict insertion
order: label to kg CO₂-eq per unit. -/
def EMISSIEFACTOREN : List (String × ℚ) :=
  [("Aardgas (m³)", 2.085),
   ("Elektriciteit - Grijze stroom (kWh)", 0.536),
   ("Elektriciteit - Groene stroom (kWh)", 0.000),
   ("Diesel (liter)", 3.256),
   ("Benzine (liter)", 2.821)]

/-- Python dict access tbl[key].  Every key the program looks up is present
in the table (the tariff selector only offers the two electricity labels),
so the default 0 of the total version is never what a lookup returns for a
key actually used. -/
def factor (tbl : List (String × ℚ)) (key : String) : ℚ :=
  (List.lookup key tbl).getD 0

/-- bereken_emissies (lines 21–35), generalised over the table it reads so
that independence from the Benzine entry can be stated.  Each strictly
positive quantity inserts one category, in the dict insertion order
Aardgas, Elektriciteit, Diesel; the electricity key is built from the
tariff string exactly as the f-string on line 29 builds it. -/
def bereken_emissies_met (tbl : List (String × ℚ)) (gas_m3 elektra_kwh : ℚ)
    (stroom_type : String) (diesel_liter : ℚ) : List (String × ℚ) :=
  let emissies : List (String × ℚ) := []
  let emissies := if 0 < gas_m3 then
    emissies ++ [("Aardgas", gas_m3 * factor tbl "Aardgas (m³)")] else emissies
  let emissies := if 0 < elektra_kwh then
    emissies ++ [("Elektriciteit",
      elektra_kwh * factor tbl ("Elektriciteit - " ++ stroom_type ++ " (kWh)"))] else emissies
  let emissies := if 0 < diesel_liter then
    emissies ++ [("Diesel", diesel_liter * factor tbl "Diesel (liter)")] else emissies
  emissies

/-- bereken_emissies as the program runs it, reading EMISSIEFACTOREN. -/
def bereken_emissies (gas_m3 elektra_kwh : ℚ) (stroom_type : String)
    (diesel_liter : ℚ) : List (String × ℚ) :=
  bereken_emissies_met EMISSIEFACTOREN gas_m3 elektra_kwh stroom_type diesel_liter

/-- totaal = sum(emissies.values()) (line 277). -/
def totaal (emissies : List (String × ℚ)) : ℚ :=
  (emissies.map Prod.snd).sum

/-- The session record main() stores wholesale on a successful calculation
(lines 279–287). -/
structure SessionState where
  emissies : List (String × ℚ)
  totaal : ℚ
  verbruik_gas : ℚ
  verbruik_elektra : ℚ
  verbruik_diesel : ℚ
  stroom_type : String
deriving DecidableEq

/-- The button handler (lines 271–287): when all three quantities are zero it
shows the warning and leaves the session state untouched; otherwise it
computes the emissions and overwrites the whole session record.  The Bool is
whether the warning was shown. -/
def klik_bereken (gas_verbruik elektra_verbruik diesel_verbruik : ℚ)
    (stroom_type : String) (s : Option SessionState) : Bool × Option SessionState :=
  if gas_verbruik = 0 ∧ elektra_verbruik = 0 ∧ diesel_verbruik = 0 then
    (true, s)
  else
    let emissies := bereken_emissies gas_verbruik elektra_verbruik stroom_type diesel_verbruik
    (false, some ⟨emissies, totaal emissies,
      gas_verbruik, elektra_verbruik, diesel_verbruik, stroom_type⟩)

/-- The results section and the download button run only when a session
record exists (lines 290 and 323): a document is generated exactly when the
state holds a result. -/
def toont_resultaten (s : Option SessionState) : Bool :=
  s.isSome

/-- Zero padding on the left to width d, for the fractional digits of
fixed-point formatting. -/
def zeroPad (d : ℕ) (s : String) : String :=
  String.mk (List.replicate (d - s.length) '0') ++ s

/-- The Python format specifier .df (d ≥ 1 decimals) on a non-negative value,
in exact arithmetic: round to d decimals and print integer part, point,
zero-padded fractional digits. -/
def formatFixed (d : ℕ) (q : ℚ) : String :=
  let n : ℕ := (round (q * (10 : ℚ) ^ d)).toNat
  toString (n / 10 ^ d) ++ "." ++ zeroPad d (toString (n % 10 ^ d))

/-- The numeric value one-decimal formatting displays: q rounded to the
nearest tenth. -/
def round1 (q : ℚ) : ℚ :=
  ((round (q * 10) : ℤ) : ℚ) / 10

/-- The percentage expression of genereer_pdf line 136, with its zero-total
guard: emissie / totaal * 100 when the total is strictly positive, else 0. -/
def pdf_percentage (emissie totaal_emissie : ℚ) : ℚ :=
  if 0 < totaal_emissie then emissie / totaal_emissie * 100 else 0

/-- emissie_tabel_data of genereer_pdf (lines 133–144): the header row, then
the loop appending one row per present category (label, value to 2 decimals,
percentage to 1 decimal with a percent sign), then the totals row whose
percentage cell is the fixed string 100%. -/
def emissie_tabel_data (emissies_data : List (String × ℚ))
    (totaal_emissie : ℚ) : List (List String) :=
  let rows := emissies_data.foldl
    (fun acc p => acc ++
      [[p.1, formatFixed 2 p.2, formatFixed 1 (pdf_percentage p.2 totaal_emissie) ++ "%"]])
    [["Categorie", "CO₂-emissies (kg CO₂-eq)", "Percentage"]]
  rows ++ [["TOTAAL", formatFixed 2 totaal_emissie, "100%"]]

/-- factoren_tabel_data of genereer_pdf (lines 175–177): the header row, then
the loop appending one row per entry of EMISSIEFACTOREN with the factor to 3
decimals. -/
def factoren_tabel_data : List (List String) :=
  EMISSIEFACTOREN.foldl
    (fun acc p => acc ++ [[p.1, formatFixed 3 p.2, "kg CO₂-eq"]])
    [["Energiedrager", "Emissiefactor", "Eenheid"]]

/-- The Percentage column of the UI results table (main, lines 304–309):
v / totaal * 100 for each stored emission value, with no zero-total guard.
Python float division by zero raises ZeroDivisionError, modelled as none. -/
def resultaten_percentages (emissies : List (String × ℚ)) (tot : ℚ) : Option (List ℚ) :=
  emissies.mapM (fun p => if tot = 0 then none else some (p.2 / tot * 100))

/-- The fields of the plotly bar-chart specification that maak_staafdiagram
sets (lines 45–65). -/
structure Staafdiagram where
  x : List String
  y : List ℚ
  marker_color : List String
  text : List String
  textposition : String
  title : String
  xaxis_title : String
  yaxis_title : String
  height : ℕ
  showlegend : Bool
deriving DecidableEq

/-- maak_staafdiagram (lines 37–67).  NOTE: in the source, line 39 reads
`if not emissies_data` with no trailing colon, a Python SyntaxError that
makes the whole module fail to import; the definition embeds the evident
intent of the function body (the guard returning None on an empty mapping,
then the bar-chart construction that follows it). -/
def maak_staafdiagram (emissies_data : List (String × ℚ)) : Option Staafdiagram :=
  if emissies_data.isEmpty then none
  else
    let categorieen := emissies_data.map Prod.fst
    let waarden := emissies_data.map Prod.snd
    some ⟨categorieen, waarden,
      ["#21808D", "#A87B2F", "#C0152F"],
      waarden.map (fun w => formatFixed 1 w ++ " kg"),
      "outside",
      "CO₂-emissies per categorie",
      "Energiedrager",
      "CO₂-emissies (kg CO₂-eq)",
      400,
      false⟩

/-- The table tbl with the value stored under key replaced by v, used to
state that the calculator never reads the Benzine entry. -/
def set_factor (tbl : List (String × ℚ)) (key : String) (v : ℚ) : List (String × ℚ) :=
  tbl.map (fun p => if p.1 = key then (p.1, v) else p)

/-! Helper lemmas: evaluated factor lookups, closed forms of the calculator
for each tariff, and the arithmetic of one-decimal rounding. -/

theorem factor_aardgas : factor EMISSIEFACTOREN "Aardgas (m³)" = 2.085 := rfl

theorem factor_grijs :
    factor EMISSIEFACTOREN ("Elektriciteit - " ++ "Grijze stroom" ++ " (kWh)") = 0.536 := rfl

theorem factor_groen :
    factor EMISSIEFACTOREN ("Elektriciteit - " ++ "Groene stroom" ++ " (kWh)") = 0 := by
  have h : factor EMISSIEFACTOREN ("Elektriciteit - " ++ "Groene stroom" ++ " (kWh)") = 0.000 := rfl
  rw [h]
  norm_num

theorem factor_diesel : factor EMISSIEFACTOREN "Diesel (liter)" = 3.256 := rfl

/-- Closed form of the calculator under the grey tariff. -/
theorem bereken_grijs_eq (g e d : ℚ) :
    bereken_emissies g e "Grijze stroom" d =
      (if 0 < g then [("Aardgas", g * 2.085)] else []) ++
      (if 0 < e then [("Elektriciteit", e * 0.536)] else []) ++
      (if 0 < d then [("Diesel", d * 3.256)] else []) := by
  simp only [bereken_emissies, bereken_emissies_met]
  rw [factor_aardgas, factor_grijs, factor_diesel]
  split_ifs <;> simp

/-- Closed form of the calculator under the green tariff. -/
theorem bereken_groen_eq (g e d : ℚ) :
    bereken_emissies g e "Groene stroom" d =
      (if 0 < g then [("Aardgas", g * 2.085)] else []) ++
      (if 0 < e then [("Elektriciteit", e * 0)] else []) ++
      (if 0 < d then [("Diesel", d * 3.256)] else []) := by
  simp only [bereken_emissies, bereken_emissies_met]
  rw [factor_aardgas, factor_groen, factor_diesel]
  split_ifs <;> simp

/-- The calculator never yields more than three categories. -/
theorem bereken_length (g e d : ℚ) (t : String) :
    (bereken_emissies g e t d).length ≤ 3 := by
  simp only [bereken_emissies, bereken_emissies_met]
  split_ifs <;> simp

/-- A left fold that appends one element per item is the appended map: the
shape of the two row-building loops of genereer_pdf. -/
theorem foldl_append_map {α β : Type} (f : α → β) (l : List α) (init : List β) :
    l.foldl (fun acc p => acc ++ [f p]) init = init ++ l.map f := by
  induction l generalizing init with
  | nil => simp
  | cons a tl ih => simp [ih]

/-- One-decimal rounding moves a value by at most one twentieth. -/
theorem abs_round1_sub (q : ℚ) : |round1 q - q| ≤ 1 / 20 := by
  have h := abs_sub_round (q * 10)
  rw [abs_sub_comm] at h
  have h2 : round1 q - q = (((round (q * 10) : ℤ) : ℚ) - q * 10) / 10 := by
    unfold round1; ring
  rw [h2, abs_div]
  have h3 : |(10 : ℚ)| = 10 := by norm_num
  rw [h3]
  linarith

/-- A sum of one-decimal roundings is an integer number of tenths. -/
theorem map_round1_sum_int (l : List ℚ) :
    ∃ k : ℤ, (l.map round1).sum = (k : ℚ) / 10 := by
  induction l with
  | nil => exact ⟨0, by simp⟩
  | cons a tl ih =>
    obtain ⟨k, hk⟩ := ih
    refine ⟨round (a * 10) + k, ?_⟩
    rw [List.map_cons, List.sum_cons, hk]
    unfold round1
    push_cast
    ring

/-- Rounding each summand to one decimal moves the sum by at most one
twentieth per summand. -/
theorem map_round1_sum_close (l : List ℚ) :
    |(l.map round1).sum - l.sum| ≤ (l.length : ℚ) * (1 / 20) := by
  induction l with
  | nil => simp
  | cons a tl ih =>
    rw [List.map_cons, List.sum_cons, List.sum_cons, List.length_cons]
    have h1 := abs_round1_sub a
    have tri : |round1 a + (tl.map round1).sum - (a + tl.sum)| ≤
        |round1 a - a| + |(tl.map round1).sum - tl.sum| := by
      have e : round1 a + (tl.map round1).sum - (a + tl.sum) =
          (round1 a - a) + ((tl.map round1).sum - tl.sum) := by ring
      rw [e]
      exact abs_add _ _
    push_cast
    linarith

/-- At most three exact percentages summing to 100 still sum to within one
tenth of 100 after each is rounded to one decimal: the sum of the roundings
is a whole number of tenths, and it moves by less than fifteen hundredths. -/
theorem round1_sum_le_three (l : List ℚ) (hlen : l.length ≤ 3) (hsum : l.sum = 100) :
    |(l.map round1).sum - 100| ≤ 1 / 10 := by
  obtain ⟨k, hk⟩ := map_round1_sum_int l
  have hclose := map_round1_sum_close l
  rw [hsum, hk] at hclose
  have hlen3 : (l.length : ℚ) ≤ 3 := by exact_mod_cast hlen
  have h32 : |(k : ℚ) / 10 - 100| ≤ 3 / 20 := by
    have hstep : (l.length : ℚ) * (1 / 20) ≤ 3 * (1 / 20) := by
      have : (0 : ℚ) ≤ 1 / 20 := by norm_num
      exact mul_le_mul_of_nonneg_right hlen3 this
    calc |(k : ℚ) / 10 - 100| ≤ (l.length : ℚ) * (1 / 20) := hclose
      _ ≤ 3 * (1 / 20) := hstep
      _ = 3 / 20 := by norm_num
  have hq : |(k : ℚ) - 1000| ≤ 3 / 2 := by
    have e : (k : ℚ) / 10 - 100 = ((k : ℚ) - 1000) / 10 := by ring
    rw [e, abs_div] at h32
    have h10 : |(10 : ℚ)| = 10 := by norm_num
    rw [h10] at h32
    linarith
  have hint : |k - 1000| ≤ 1 := by
    by_contra hc
    push_neg at hc
    have h2 : (2 : ℤ) ≤ |k - 1000| := hc
    have h2q : (2 : ℚ) ≤ |(k : ℚ) - 1000| := by exact_mod_cast h2
    linarith
  have h1q : |(k : ℚ) - 1000| ≤ 1 := by exact_mod_cast hint
  rw [hk]
  have e : (k : ℚ) / 10 - 100 = ((k : ℚ) - 1000) / 10 := by ring
  rw [e, abs_div]
  have h10 : |(10 : ℚ)| = 10 := by norm_num
  rw [h10]
  linarith

/-- Distributing the division by the total over the sum of the values. -/
theorem sum_div_mul (l : List (String × ℚ)) (T : ℚ) :
    (l.map (fun p => p.2 / T * 100)).sum = (l.map Prod.snd).sum / T * 100 := by
  induction l with
  | nil => simp
  | cons a tl ih => simp [ih, add_div, add_mul]

/-- With a strictly positive total, the exact percentage column of the PDF
table sums to exactly 100. -/
theorem pdf_percentage_sum (l : List (String × ℚ)) (h : 0 < totaal l) :
    (l.map (fun p => pdf_percentage p.2 (totaal l))).sum = 100 := by
  have hT : totaal l ≠ 0 := ne_of_gt h
  have e : (fun p : String × ℚ => pdf_percentage p.2 (totaal l)) =
      (fun p : String × ℚ => p.2 / totaal l * 100) := by
    funext p
    simp [pdf_percentage, h]
  rw [e, sum_div_mul]
  rw [show (l.map Prod.snd).sum = totaal l from rfl]
  rw [div_self hT, one_mul]

/-- C1: for every non-negative input triple and either tariff, each present
category's value equals its input quantity times the corresponding fixed
factor (the electricity factor selected by the tariff: 0.536 grey, 0 green),
every category whose quantity is exactly zero is absent from the result, and
no other category occurs. -/
theorem C1_bereken_emissies_correct (g e d : ℚ) (t : String)
    (hg : 0 ≤ g) (he : 0 ≤ e) (hd : 0 ≤ d)
    (ht : t = "Grijze stroom" ∨ t = "Groene stroom") :
    List.lookup "Aardgas" (bereken_emissies g e t d) =
      (if 0 < g then some (g * 2.085) else none) ∧
    List.lookup "Elektriciteit" (bereken_emissies g e t d) =
      (if 0 < e then some (e * (if t = "Grijze stroom" then 0.536 else 0)) else none) ∧
    List.lookup "Diesel" (bereken_emissies g e t d) =
      (if 0 < d then some (d * 3.256) else none) ∧
    ∀ p ∈ bereken_emissies g e t d,
      p.1 = "Aardgas" ∨ p.1 = "Elektriciteit" ∨ p.1 = "Diesel" := by
  rcases ht with rfl | rfl
  · rw [bereken_grijs_eq]
    split_ifs <;> simp_all [List.lookup]
  · rw [bereken_groen_eq]
    split_ifs <;> simp_all [List.lookup]

/-- C1 witness: gas 1 m³, electricity 2 kWh grey, diesel 3 liter. -/
theorem C1_bereken_emissies_correct_witness :
    List.lookup "Aardgas" (bereken_emissies 1 2 "Grijze stroom" 3) =
      (if (0 : ℚ) < 1 then some ((1 : ℚ) * 2.085) else none) ∧
    List.lookup "Elektriciteit" (bereken_emissies 1 2 "Grijze stroom" 3) =
      (if (0 : ℚ) < 2 then
        some ((2 : ℚ) * (if "Grijze stroom" = "Grijze stroom" then 0.536 else 0)) else none) ∧
    List.lookup "Diesel" (bereken_emissies 1 2 "Grijze stroom" 3) =
      (if (0 : ℚ) < 3 then some ((3 : ℚ) * 3.256) else none) ∧
    ∀ p ∈ bereken_emissies 1 2 "Grijze stroom" 3,
      p.1 = "Aardgas" ∨ p.1 = "Elektriciteit" ∨ p.1 = "Diesel" :=
  C1_bereken_emissies_correct 1 2 3 "Grijze stroom"
    (by norm_num) (by norm_num) (by norm_num) (Or.inl rfl)

/-- C2: whenever the button handler performs a calculation and stores a
session record, the stored total equals the sum of the stored per-category
values, exactly. -/
theorem C2_totaal_is_som (g e d : ℚ) (t : String) (s : Option SessionState)
    (s' : SessionState) (h : klik_bereken g e d t s = (false, some s')) :
    s'.totaal = (s'.emissies.map Prod.snd).sum := by
  unfold klik_bereken at h
  split_ifs at h with hz
  · simp at h
  · simp only [Prod.mk.injEq, Option.some.injEq] at h
    obtain ⟨-, h2⟩ := h
    subst h2
    rfl

/-- C2 witness: the record stored for gas 100, electricity 300 grey. -/
theorem C2_totaal_is_som_witness :
    (SessionState.mk [("Aardgas", 208.5), ("Elektriciteit", 160.8)]
        369.3 100 300 0 "Grijze stroom").totaal =
      ((SessionState.mk [("Aardgas", (208.5 : ℚ)), ("Elektriciteit", 160.8)]
        369.3 100 300 0 "Grijze stroom").emissies.map Prod.snd).sum :=
  C2_totaal_is_som 100 300 0 "Grijze stroom" none _ (by
    unfold klik_bereken
    rw [if_neg (by norm_num)]
    rw [bereken_grijs_eq]
    norm_num [totaal])

/-- C3: starting from an empty session, the warning is shown if and only if
all three quantities are zero, and exactly in that case nothing is computed
or stored and no results section (hence no document) is produced; invoked on
the all-zero reading the calculator returns the empty mapping. -/
theorem C3_alle_nul_iff (g e d : ℚ) (t : String) :
    ((klik_bereken g e d t none).1 = true ↔ g = 0 ∧ e = 0 ∧ d = 0) ∧
    ((klik_bereken g e d t none).2 = none ↔ g = 0 ∧ e = 0 ∧ d = 0) ∧
    (toont_resultaten (klik_bereken g e d t none).2 = false ↔ g = 0 ∧ e = 0 ∧ d = 0) ∧
    bereken_emissies 0 0 t 0 = [] := by
  refine ⟨?_, ?_, ?_, ?_⟩
  · unfold klik_bereken
    split_ifs with hz <;> simp [hz]
  · unfold klik_bereken
    split_ifs with hz <;> simp [hz]
  · unfold klik_bereken toont_resultaten
    split_ifs with hz <;> simp [hz]
  · simp only [bereken_emissies, bereken_emissies_met]
    simp

/-- C5: with identical non-negative quantities, switching the tariff from
grey to green leaves the gas and diesel entries of the result identical and
only changes the electricity entry, which is exactly 0 under green. -/
theorem C5_tarief_frame (g e d : ℚ) (hg : 0 ≤ g) (he : 0 ≤ e) (hd : 0 ≤ d) :
    List.lookup "Aardgas" (bereken_emissies g e "Groene stroom" d) =
      List.lookup "Aardgas" (bereken_emissies g e "Grijze stroom" d) ∧
    List.lookup "Diesel" (bereken_emissies g e "Groene stroom" d) =
      List.lookup "Diesel" (bereken_emissies g e "Grijze stroom" d) ∧
    List.lookup "Elektriciteit" (bereken_emissies g e "Groene stroom" d) =
      (if 0 < e then some 0 else none) ∧
    List.lookup "Elektriciteit" (bereken_emissies g e "Grijze stroom" d) =
      (if 0 < e then some (e * 0.536) else none) := by
  rw [bereken_grijs_eq, bereken_groen_eq]
  split_ifs <;> simp [List.lookup]

/-- C5 witness: gas 1, electricity 2, diesel 3. -/
theorem C5_tarief_frame_witness :
    List.lookup "Aardgas" (bereken_emissies 1 2 "Groene stroom" 3) =
      List.lookup "Aardgas" (bereken_emissies 1 2 "Grijze stroom" 3) ∧
    List.lookup "Diesel" (bereken_emissies 1 2 "Groene stroom" 3) =
      List.lookup "Diesel" (bereken_emissies 1 2 "Grijze stroom" 3) ∧
    List.lookup "Elektriciteit" (bereken_emissies 1 2 "Groene stroom" 3) =
      (if (0 : ℚ) < 2 then some 0 else none) ∧
    List.lookup "Elektriciteit" (bereken_emissies 1 2 "Grijze stroom" 3) =
      (if (0 : ℚ) < 2 then some ((2 : ℚ) * 0.536) else none) :=
  C5_tarief_frame 1 2 3 (by norm_num) (by norm_num) (by norm_num)

/-- C7: gas 100 m³ and electricity 300 kWh on the grey tariff, diesel 0,
yield exactly the mapping with gas 208.5 and electricity 160.8, no diesel
entry, and total 369.3. -/
theorem C7_voorbeeld :
    bereken_emissies 100 300 "Grijze stroom" 0 =
      [("Aardgas", 208.5), ("Elektriciteit", 160.8)] ∧
    totaal (bereken_emissies 100 300 "Grijze stroom" 0) = 369.3 ∧
    List.lookup "Diesel" (bereken_emissies 100 300 "Grijze stroom" 0) = none := by
  have h := bereken_grijs_eq 100 300 0
  norm_num at h
  refine ⟨?_, ?_, ?_⟩ <;> rw [h]
  · norm_num
  · norm_num [totaal]
  · simp [List.lookup]

/-- C10: electricity 1 kWh on the green tariff with gas and diesel zero gives
the non-empty result mapping with the electricity category present at value
0, a total of 0, and the UI results-table percentage computation, which has
no zero-total guard, divides by zero (modelled as none). -/
theorem C10_deling_door_nul :
    bereken_emissies 0 1 "Groene stroom" 0 = [("Elektriciteit", 0)] ∧
    totaal (bereken_emissies 0 1 "Groene stroom" 0) = 0 ∧
    resultaten_percentages (bereken_emissies 0 1 "Groene stroom" 0)
      (totaal (bereken_emissies 0 1 "Groene stroom" 0)) = none := by
  have h := bereken_groen_eq 0 1 0
  norm_num at h
  refine ⟨h, ?_, ?_⟩ <;>
    rw [h] <;>
    simp [totaal, resultaten_percentages, List.mapM, List.mapM.loop]

/-- C4, amended with the strictly-positive-total condition: for every
calculator result whose total is strictly positive, the one-decimal-rounded
percentage column of the report's emissions table sums to 100 within 0.1. -/
theorem C4_percentages_sommeren_100 (g e d : ℚ) (t : String)
    (h : 0 < totaal (bereken_emissies g e t d)) :
    |((bereken_emissies g e t d).map
        (fun p => round1 (pdf_percentage p.2 (totaal (bereken_emissies g e t d))))).sum
      - 100| ≤ 1 / 10 := by
  have hlen : ((bereken_emissies g e t d).map
      (fun p => pdf_percentage p.2 (totaal (bereken_emissies g e t d)))).length ≤ 3 := by
    rw [List.length_map]
    exact bereken_length g e d t
  have hsum := pdf_percentage_sum (bereken_emissies g e t d) h
  have hmain := round1_sum_le_three _ hlen hsum
  rw [List.map_map] at hmain
  exact hmain

/-- C4 witness: gas 100, electricity 300 grey, diesel 0 has total 369.3 > 0. -/
theorem C4_percentages_sommeren_100_witness :
    |((bereken_emissies 100 300 "Grijze stroom" 0).map
        (fun p => round1 (pdf_percentage p.2
          (totaal (bereken_emissies 100 300 "Grijze stroom" 0))))).sum
      - 100| ≤ 1 / 10 :=
  C4_percentages_sommeren_100 100 300 0 "Grijze stroom" (by
    have h := bereken_grijs_eq 100 300 0
    norm_num at h
    rw [h]
    norm_num [totaal])

/-- C4 as stated fails: electricity only, on the green tariff, yields a
result with one present category and total 0, whose single rounded
percentage cell is 0, so the column sums to 0 rather than 100 ± 0.1. -/
theorem C4_tegenvoorbeeld :
    bereken_emissies 0 100 "Groene stroom" 0 ≠ [] ∧
    ¬ |((bereken_emissies 0 100 "Groene stroom" 0).map
        (fun p => round1 (pdf_percentage p.2
          (totaal (bereken_emissies 0 100 "Groene stroom" 0))))).sum
      - 100| ≤ 1 / 10 := by
  have h := bereken_groen_eq 0 100 0
  norm_num at h
  constructor
  · rw [h]
    simp
  · rw [h]
    norm_num [totaal, pdf_percentage, round1]

/-- C6: the report's emissions table is the header row, then one row per
present category with its value formatted to 2 decimals and its percentage
of the total (value/total×100 when the total is strictly positive, 0 when
the total is 0, so no division by zero occurs) formatted to 1 decimal, then
a totals row whose percentage cell is the fixed string 100%. -/
theorem C6_emissie_tabel_structuur (ed : List (String × ℚ)) (T : ℚ) :
    emissie_tabel_data ed T =
      (["Categorie", "CO₂-emissies (kg CO₂-eq)", "Percentage"] ::
        ed.map (fun p => [p.1, formatFixed 2 p.2,
          formatFixed 1 (pdf_percentage p.2 T) ++ "%"])) ++
      [["TOTAAL", formatFixed 2 T, "100%"]] ∧
    (∀ v : ℚ, pdf_percentage v 0 = 0) ∧
    (0 < T → ∀ v : ℚ, pdf_percentage v T = v / T * 100) := by
  refine ⟨?_, ?_, ?_⟩
  · unfold emissie_tabel_data
    rw [foldl_append_map (fun p : String × ℚ =>
      [p.1, formatFixed 2 p.2, formatFixed 1 (pdf_percentage p.2 T) ++ "%"])]
    simp
  · intro v
    simp [pdf_percentage]
  · intro hT v
    simp [pdf_percentage, hT]

/-- C8: the chart builder yields the no-chart signal on the empty mapping;
on a non-empty mapping it yields a specification with one bar per category
in insertion order whose heights are the emission values, labels the values
to one decimal followed by the kg suffix, the fixed three-color palette, the
fixed axis-title strings, and no legend.  This is the evident intent of
maak_staafdiagram; the source line 39 is a SyntaxError, see the definition's
note and the claim's code_bug status. -/
theorem C8_staafdiagram_gedrag (ed : List (String × ℚ)) :
    maak_staafdiagram [] = none ∧
    (∀ c, maak_staafdiagram ed = some c →
      c.x = ed.map Prod.fst ∧
      c.y = ed.map Prod.snd ∧
      c.text = ed.map (fun p => formatFixed 1 p.2 ++ " kg") ∧
      c.marker_color = ["#21808D", "#A87B2F", "#C0152F"] ∧
      c.title = "CO₂-emissies per categorie" ∧
      c.xaxis_title = "Energiedrager" ∧
      c.yaxis_title = "CO₂-emissies (kg CO₂-eq)" ∧
      c.height = 400 ∧
      c.showlegend = false) ∧
    (ed ≠ [] → (maak_staafdiagram ed).isSome = true) := by
  refine ⟨by simp [maak_staafdiagram], ?_, ?_⟩
  · intro c hc
    unfold maak_staafdiagram at hc
    split_ifs at hc with hemp
    simp only [Option.some.injEq] at hc
    rw [← hc]
    refine ⟨rfl, rfl, ?_, rfl, rfl, rfl, rfl, rfl, rfl⟩
    simp [Function.comp]
  · intro hne
    unfold maak_staafdiagram
    rw [if_neg (by simpa [List.isEmpty_iff] using hne)]
    simp

/-- Evaluated 3-decimal rendering of the gas factor. -/
theorem formatFixed3_aardgas : formatFixed 3 (2.085 : ℚ) = "2.085" := by
  have h : round ((2.085 : ℚ) * 10 ^ 3) = 2085 := by norm_num [round_eq]
  simp only [formatFixed, h]
  rfl

/-- Evaluated 3-decimal rendering of the grey-electricity factor. -/
theorem formatFixed3_grijs : formatFixed 3 (0.536 : ℚ) = "0.536" := by
  have h : round ((0.536 : ℚ) * 10 ^ 3) = 536 := by norm_num [round_eq]
  simp only [formatFixed, h]
  rfl

/-- Evaluated 3-decimal rendering of the green-electricity factor. -/
theorem formatFixed3_groen : formatFixed 3 (0.000 : ℚ) = "0.000" := by
  have h : round ((0.000 : ℚ) * 10 ^ 3) = 0 := by norm_num [round_eq]
  simp only [formatFixed, h]
  rfl

/-- Evaluated 3-decimal rendering of the diesel factor. -/
theorem formatFixed3_diesel : formatFixed 3 (3.256 : ℚ) = "3.256" := by
  have h : round ((3.256 : ℚ) * 10 ^ 3) = 3256 := by norm_num [round_eq]
  simp only [formatFixed, h]
  rfl

/-- Evaluated 3-decimal rendering of the petrol factor. -/
theorem formatFixed3_benzine : formatFixed 3 (2.821 : ℚ) = "2.821" := by
  have h : round ((2.821 : ℚ) * 10 ^ 3) = 2821 := by norm_num [round_eq]
  simp only [formatFixed, h]
  rfl

/-- The reference table of the report, fully evaluated. -/
theorem factoren_tabel_eval :
    factoren_tabel_data =
      [["Energiedrager", "Emissiefactor", "Eenheid"],
       ["Aardgas (m³)", "2.085", "kg CO₂-eq"],
       ["Elektriciteit - Grijze stroom (kWh)", "0.536", "kg CO₂-eq"],
       ["Elektriciteit - Groene stroom (kWh)", "0.000", "kg CO₂-eq"],
       ["Diesel (liter)", "3.256", "kg CO₂-eq"],
       ["Benzine (liter)", "2.821", "kg CO₂-eq"]] := by
  simp [factoren_tabel_data, EMISSIEFACTOREN, formatFixed3_aardgas, formatFixed3_grijs,
    formatFixed3_groen, formatFixed3_diesel, formatFixed3_benzine]

/-- C9: the factor table is exactly the five fixed entries (gas 2.085, grey
electricity 0.536, green electricity 0, diesel 3.256, petrol 2.821); it is
an immutable constant of the embedding which no operation writes; the
report's reference table lists all five entries with 3-decimal factors; and
the calculator's output, for either tariff, is unchanged under any
replacement of the petrol entry's value — the calculator never reads the
petrol entry. -/
theorem C9_emissiefactoren_vast :
    EMISSIEFACTOREN.length = 5 ∧
    EMISSIEFACTOREN.map Prod.fst =
      ["Aardgas (m³)", "Elektriciteit - Grijze stroom (kWh)",
       "Elektriciteit - Groene stroom (kWh)", "Diesel (liter)", "Benzine (liter)"] ∧
    EMISSIEFACTOREN.map Prod.snd = [2.085, 0.536, 0, 3.256, 2.821] ∧
    factoren_tabel_data =
      ["Energiedrager", "Emissiefactor", "Eenheid"] ::
        EMISSIEFACTOREN.map (fun p => [p.1, formatFixed 3 p.2, "kg CO₂-eq"]) ∧
    factoren_tabel_data.map (fun r => r.getD 1 "") =
      ["Emissiefactor", "2.085", "0.536", "0.000", "3.256", "2.821"] ∧
    ∀ (v g e d : ℚ) (t : String), t = "Grijze stroom" ∨ t = "Groene stroom" →
      bereken_emissies_met (set_factor EMISSIEFACTOREN "Benzine (liter)" v) g e t d =
        bereken_emissies g e t d := by
  refine ⟨rfl, by simp [EMISSIEFACTOREN], ?_, ?_, ?_, ?_⟩
  · simp [EMISSIEFACTOREN]
    norm_num
  · unfold factoren_tabel_data
    rw [foldl_append_map (fun p : String × ℚ => [p.1, formatFixed 3 p.2, "kg CO₂-eq"])]
    simp
  · rw [factoren_tabel_eval]
    simp
  · intro v g e d t ht
    have hset : set_factor EMISSIEFACTOREN "Benzine (liter)" v =
        [("Aardgas (m³)", 2.085),
         ("Elektriciteit - Grijze stroom (kWh)", 0.536),
         ("Elektriciteit - Groene stroom (kWh)", 0.000),
         ("Diesel (liter)", 3.256),
         ("Benzine (liter)", v)] := by
      simp [set_factor, EMISSIEFACTOREN]
    rcases ht with rfl | rfl <;>
      simp [bereken_emissies, bereken_emissies_met, factor, hset, EMISSIEFACTOREN, List.lookup]

end CO2App
